import Mathlib

/-!
Shallow embedding of `src/configuration.rs` from the libusb-rs binding layer.

The Rust module defines a `Configuration` value type with six accessor
methods and a conversion function `from_libusb` that turns a native
`libusb_config_descriptor` (plus its out-of-line array of native interface
records) into an owned `Configuration`.

Modelling choices:
- Rust `u8` fields are embedded as `Fin 256`; the `u16` arithmetic in
  `max_power()` is embedded as `Nat` arithmetic reduced `% 65536` where the
  source computes in `u16`.
- The native interface array reached through the raw pointer
  `configuration.interface` is embedded as a `List NI` of native interface
  records; `slice::from_raw_parts ptr n` becomes `List.take n`, with the
  caller precondition (at least `n` valid elements) rendered as
  `n ≤ list.length`.
- The external Interface Converter (`::interface::from_libusb`, a sibling
  module outside this file's source) is a parameter `conv : NI → I`.
-/

namespace LibusbRs

/-- Embedding of the native `libusb_config_descriptor` record, restricted to
the fields the Rust source reads.  The `interface` field stands for the
native interface array that the raw pointer points into. -/
structure libusb_config_descriptor (NI : Type) where
  bConfigurationValue : Fin 256
  iConfiguration : Fin 256
  bmAttributes : Fin 256
  bMaxPower : Fin 256
  bNumInterfaces : Fin 256
  interface : List NI

/-- Embedding of the Rust struct `Configuration` (configuration.rs lines
8-14).  The fields keep the source names; `I` is the (external) converted
interface type. -/
structure Configuration (I : Type) where
  number : Fin 256
  description_index : Option (Fin 256)
  attributes : Fin 256
  max_power : Fin 256
  interfaces : List I

namespace Configuration

variable {I : Type}

/-- Embedding of `Configuration::max_power()`:
`self.max_power as u16 * 2`, computed in `u16`. -/
def max_power_mw (c : Configuration I) : Nat :=
  (c.max_power.val * 2) % 65536

/-- Embedding of `Configuration::self_powered()`:
`self.attributes & 0x40 != 0`. -/
def self_powered (c : Configuration I) : Bool :=
  (c.attributes.val &&& 0x40) != 0

/-- Embedding of `Configuration::remote_wakeup()`:
`self.attributes & 0x20 != 0`. -/
def remote_wakeup (c : Configuration I) : Bool :=
  (c.attributes.val &&& 0x20) != 0

/-- Embedding of `Configuration::description_string_index()`:
returns the stored `description_index` field. -/
def description_string_index (c : Configuration I) : Option (Fin 256) :=
  c.description_index

end Configuration

/-- Embedding of the free function `from_libusb` (configuration.rs lines
50-63).  `conv` is the external Interface Converter
(`::interface::from_libusb`).  The slice built by
`slice::from_raw_parts(configuration.interface, bNumInterfaces)` is the
first `bNumInterfaces` elements of the native array. -/
def from_libusb {NI I : Type} (conv : NI → I)
    (configuration : libusb_config_descriptor NI) : Configuration I :=
  let interfaces := configuration.interface.take configuration.bNumInterfaces.val
  { number := configuration.bConfigurationValue
    description_index :=
      if configuration.iConfiguration.val = 0 then none
      else some configuration.iConfiguration
    attributes := configuration.bmAttributes
    max_power := configuration.bMaxPower
    interfaces := interfaces.map conv }

/-- Checked model of the unsafe boundary `slice::from_raw_parts(ptr, len)`:
the read is valid exactly when the native array holds at least `len`
elements; otherwise the behavior is undefined (modelled as `none`). -/
def slice_from_raw_parts {NI : Type} (data : List NI) (len : Nat) :
    Option (List NI) :=
  if len ≤ data.length then some (data.take len) else none

/-- Variant of `from_libusb` that makes the unsafe boundary explicit: it
yields a `Configuration` exactly when the raw slice read is valid, and has
no other failure path (every scalar field is copied unconditionally). -/
def from_libusb_checked {NI I : Type} (conv : NI → I)
    (configuration : libusb_config_descriptor NI) : Option (Configuration I) :=
  (slice_from_raw_parts configuration.interface configuration.bNumInterfaces.val).map
    (fun interfaces =>
      { number := configuration.bConfigurationValue
        description_index :=
          if configuration.iConfiguration.val = 0 then none
          else some configuration.iConfiguration
        attributes := configuration.bmAttributes
        max_power := configuration.bMaxPower
        interfaces := interfaces.map conv })

/-- The six public accessors of `Configuration`, as syntactic operations for
reasoning about sequences of accessor calls. -/
inductive Accessor where
  | number
  | max_power
  | self_powered
  | remote_wakeup
  | description_string_index
  | interfaces

/-- Result value of one accessor call (the accessors have different return
types in the source). -/
inductive AccessorResult (I : Type) where
  | byte : Fin 256 → AccessorResult I
  | word : Nat → AccessorResult I
  | flag : Bool → AccessorResult I
  | optByte : Option (Fin 256) → AccessorResult I
  | view : List I → AccessorResult I

/-- State-passing embedding of an accessor call: each Rust accessor takes
`&self` and its body only reads stored fields, so the call returns its
result together with the (unchanged, per the bodies) receiver state. -/
def Accessor.call {I : Type} (a : Accessor) (c : Configuration I) :
    AccessorResult I × Configuration I :=
  match a with
  | .number => (.byte c.number, c)
  | .max_power => (.word c.max_power_mw, c)
  | .self_powered => (.flag c.self_powered, c)
  | .remote_wakeup => (.flag c.remote_wakeup, c)
  | .description_string_index => (.optByte c.description_string_index, c)
  | .interfaces => (.view c.interfaces, c)

/-- Runs a sequence of accessor calls, threading the receiver state. -/
def runAccessors {I : Type} (ops : List Accessor) (c : Configuration I) :
    Configuration I :=
  ops.foldl (fun s a => (Accessor.call a s).2) c

end LibusbRs

namespace LibusbRs

set_option maxRecDepth 4096 in
/-- Helper: for bytes, the test `(a &&& 0x40) != 0` coincides with bit 6. -/
theorem and64_ne_zero_eq_testBit6 :
    ∀ a : Fin 256, ((a.val &&& 64) != 0) = a.val.testBit 6 := by decide

set_option maxRecDepth 4096 in
/-- Helper: for bytes, the test `(a &&& 0x20) != 0` coincides with bit 5. -/
theorem and32_ne_zero_eq_testBit5 :
    ∀ a : Fin 256, ((a.val &&& 32) != 0) = a.val.testBit 5 := by decide

/-- C1: for a native descriptor whose interface array has at least
`bNumInterfaces` valid elements, `interfaces()` of the converted
`Configuration` has length exactly `bNumInterfaces`, and its k-th element is
the Interface Converter applied to the k-th source record, in source
order. -/
theorem interfaces_length_and_order {NI I : Type} (conv : NI → I)
    (c : libusb_config_descriptor NI)
    (h : c.bNumInterfaces.val ≤ c.interface.length) :
    (from_libusb conv c).interfaces.length = c.bNumInterfaces.val ∧
    ∀ k, k < c.bNumInterfaces.val →
      (from_libusb conv c).interfaces[k]? = c.interface[k]?.map conv := by
  constructor
  · simp [from_libusb, List.length_take, Nat.min_eq_left h]
  · intro k hk
    simp [from_libusb, List.getElem?_map, List.getElem?_take, hk]

/-- Witness for C1 at a concrete descriptor with 2 of 3 array elements
used. -/
theorem interfaces_length_and_order_witness :
    ((2 : Fin 256).val ≤ ([10, 20, 30] : List Nat).length) ∧
    ((from_libusb (fun n : Nat => n + 1)
        ⟨1, 2, 3, 4, 2, [10, 20, 30]⟩).interfaces.length = (2 : Fin 256).val ∧
      ∀ k, k < (2 : Fin 256).val →
        (from_libusb (fun n : Nat => n + 1)
            ⟨1, 2, 3, 4, 2, [10, 20, 30]⟩).interfaces[k]? =
          ([10, 20, 30] : List Nat)[k]?.map (fun n => n + 1)) :=
  ⟨by decide,
    interfaces_length_and_order (fun n : Nat => n + 1)
      ⟨1, 2, 3, 4, 2, [10, 20, 30]⟩ (by decide)⟩

/-- C2: `description_string_index()` of the converted `Configuration` is
`none` iff the raw `iConfiguration` field is 0, and is `some v` whenever the
raw field equals any nonzero byte `v` (so the mapping is injective on
nonzero values). -/
theorem description_string_index_spec {NI I : Type} (conv : NI → I)
    (c : libusb_config_descriptor NI) :
    ((from_libusb conv c).description_string_index = none ↔
      c.iConfiguration.val = 0) ∧
    ∀ v : Fin 256, v.val ≠ 0 → c.iConfiguration = v →
      (from_libusb conv c).description_string_index = some v := by
  constructor
  · by_cases h : c.iConfiguration.val = 0 <;>
      simp [from_libusb, Configuration.description_string_index, h]
  · intro v hv hc
    subst hc
    simp [from_libusb, Configuration.description_string_index, hv]

/-- Witness for C2 at a concrete descriptor with `iConfiguration = 42`. -/
theorem description_string_index_spec_witness :
    (from_libusb (fun n : Nat => n)
        ⟨1, 42, 3, 4, 0, ([] : List Nat)⟩).description_string_index =
      some 42 :=
  (description_string_index_spec (fun n : Nat => n)
    ⟨1, 42, 3, 4, 0, ([] : List Nat)⟩).2 42 (by decide) rfl

/-- C3: `max_power()` of the converted `Configuration` equals exactly twice
the raw `bMaxPower` byte, with no 8-bit overflow, rounding or clamping (the
multiply happens after widening to 16 bits). -/
theorem max_power_doubles {NI I : Type} (conv : NI → I)
    (c : libusb_config_descriptor NI) :
    (from_libusb conv c).max_power_mw = 2 * c.bMaxPower.val := by
  have h := c.bMaxPower.isLt
  simp [from_libusb, Configuration.max_power_mw]
  omega

/-- C4: `self_powered()` of the converted `Configuration` is true iff bit 6
(mask 0x40) of the raw `bmAttributes` byte is set, false otherwise. -/
theorem self_powered_iff_bit6 {NI I : Type} (conv : NI → I)
    (c : libusb_config_descriptor NI) :
    (from_libusb conv c).self_powered = c.bmAttributes.val.testBit 6 := by
  simpa [from_libusb, Configuration.self_powered] using
    and64_ne_zero_eq_testBit6 c.bmAttributes

/-- C5: `remote_wakeup()` of the converted `Configuration` is true iff bit 5
(mask 0x20) of the raw `bmAttributes` byte is set, false otherwise. -/
theorem remote_wakeup_iff_bit5 {NI I : Type} (conv : NI → I)
    (c : libusb_config_descriptor NI) :
    (from_libusb conv c).remote_wakeup = c.bmAttributes.val.testBit 5 := by
  simpa [from_libusb, Configuration.remote_wakeup] using
    and32_ne_zero_eq_testBit5 c.bmAttributes

/-- C6: `number()` of the converted `Configuration` is the raw
`bConfigurationValue` byte verbatim, for every byte value, with no
validation or transformation. -/
theorem number_verbatim {NI I : Type} (conv : NI → I)
    (c : libusb_config_descriptor NI) :
    (from_libusb conv c).number = c.bConfigurationValue := rfl

/-- C7: given the caller precondition that the native interface array has at
least `bNumInterfaces` valid elements, the conversion is total: the checked
model of the unsafe boundary succeeds and returns exactly the
`Configuration` built by `from_libusb`, with no error path. -/
theorem from_libusb_total {NI I : Type} (conv : NI → I)
    (c : libusb_config_descriptor NI)
    (h : c.bNumInterfaces.val ≤ c.interface.length) :
    from_libusb_checked conv c = some (from_libusb conv c) := by
  simp [from_libusb_checked, slice_from_raw_parts, from_libusb, h]

/-- Witness for C7 at a concrete descriptor with 1 of 2 array elements
used. -/
theorem from_libusb_total_witness :
    from_libusb_checked (fun n : Nat => n + 1) ⟨7, 0, 96, 50, 1, [10, 20]⟩ =
      some (from_libusb (fun n : Nat => n + 1) ⟨7, 0, 96, 50, 1, [10, 20]⟩) :=
  from_libusb_total (fun n : Nat => n + 1) ⟨7, 0, 96, 50, 1, [10, 20]⟩
    (by decide)

/-- C8: `self_powered()` and `remote_wakeup()` depend only on the stored
attributes byte (two Configurations with equal attributes agree on both,
whatever their other fields), and the two bit tests are independent: every
combination of the two flags is realized by some attributes byte. -/
theorem attributes_flags_depend_only_on_attributes {I : Type} :
    (∀ c₁ c₂ : Configuration I, c₁.attributes = c₂.attributes →
      c₁.self_powered = c₂.self_powered ∧
        c₁.remote_wakeup = c₂.remote_wakeup) ∧
    (∀ s r : Bool, ∃ a : Fin 256, ∀ c : Configuration I, c.attributes = a →
      c.self_powered = s ∧ c.remote_wakeup = r) := by
  constructor
  · intro c₁ c₂ h
    constructor <;>
      simp [Configuration.self_powered, Configuration.remote_wakeup, h]
  · intro s r
    cases s <;> cases r
    · exact ⟨0, fun c h => by
        simp only [Configuration.self_powered, Configuration.remote_wakeup, h]
        decide⟩
    · exact ⟨32, fun c h => by
        simp only [Configuration.self_powered, Configuration.remote_wakeup, h]
        decide⟩
    · exact ⟨64, fun c h => by
        simp only [Configuration.self_powered, Configuration.remote_wakeup, h]
        decide⟩
    · exact ⟨96, fun c h => by
        simp only [Configuration.self_powered, Configuration.remote_wakeup, h]
        decide⟩

/-- Witness for C8 at two concrete Configurations sharing attributes 0x60
but differing in every other field. -/
theorem attributes_flags_witness :
    (⟨1, none, 96, 10, ([] : List Nat)⟩ : Configuration Nat).self_powered =
        (⟨2, some 3, 96, 20, [5]⟩ : Configuration Nat).self_powered ∧
      (⟨1, none, 96, 10, ([] : List Nat)⟩ : Configuration Nat).remote_wakeup =
        (⟨2, some 3, 96, 20, [5]⟩ : Configuration Nat).remote_wakeup :=
  (@attributes_flags_depend_only_on_attributes Nat).1
    ⟨1, none, 96, 10, []⟩ ⟨2, some 3, 96, 20, [5]⟩ rfl

/-- C9: accessors never mutate the `Configuration`: any sequence of accessor
calls leaves the value unchanged, and an accessor called after any sequence
of other calls returns the same result as on the original value. -/
theorem accessors_pure {I : Type} (ops : List Accessor) (c : Configuration I)
    (a : Accessor) :
    runAccessors ops c = c ∧
    (Accessor.call a (runAccessors ops c)).1 = (Accessor.call a c).1 ∧
    (Accessor.call a c).2 = c := by
  have hstep : ∀ (b : Accessor) (s : Configuration I),
      (Accessor.call b s).2 = s := by
    intro b s; cases b <;> rfl
  have hrun : ∀ (l : List Accessor) (s : Configuration I),
      runAccessors l s = s := by
    intro l
    induction l with
    | nil => intro s; rfl
    | cons b t ih =>
        intro s
        have hc : runAccessors (b :: t) s =
            runAccessors t ((Accessor.call b s).2) := rfl
        rw [hc, hstep b s, ih]
  exact ⟨hrun ops c, by rw [hrun ops c], hstep a c⟩

/-- C10: the derived `max_power()` value of every converted `Configuration`
is even and never exceeds 510, because the raw field is a byte (at most 255)
and the derivation is a widening multiply by two. -/
theorem max_power_even_and_bounded {NI I : Type} (conv : NI → I)
    (c : libusb_config_descriptor NI) :
    2 ∣ (from_libusb conv c).max_power_mw ∧
      (from_libusb conv c).max_power_mw ≤ 510 := by
  have h := c.bMaxPower.isLt
  simp [from_libusb, Configuration.max_power_mw]
  omega

end LibusbRs
